import Mathlib

/-!
Verification development for the vulkan_engine renderer core.

The definitions below are a shallow embedding of the Rust sources:
`src/engine/src/vulkan/buffer.rs` and `src/engine/src/vulkan/renderer.rs`.
Byte sizes and offsets are modelled as `Nat`; Vulkan device handles carry no
information relevant to the verified properties and are dropped.  Two runtime
device values appear as parameters throughout: `uniformAlignment` is the
device's `min_uniform_buffer_offset_alignment`, and
`atlasIndexUniformRelativeOffset` is the text renderer's
`atlas_index_uniform_relative_offset` field (its initialisation lives in
`text_renderer.rs`, which is outside the embedded sources; Vulkan requires
every dynamic uniform offset to be a multiple of the uniform alignment, which
is the hypothesis used about it).
-/

namespace VulkanEngine

/-- Constant `FRAME_DATA_MEMORY_SIZE` (renderer.rs:45): 76 `f32` values. -/
def FRAME_DATA_MEMORY_SIZE : Nat := 76 * 4

/-- Constant `MAX_POINT_LIGHTS` (renderer.rs:46). -/
def MAX_POINT_LIGHTS : Nat := 5

/-- Constant `IN_FLIGHT_FRAMES_COUNT` (renderer.rs:44). -/
def IN_FLIGHT_FRAMES_COUNT : Nat := 2

/-- The material tag `Material` (mesh.rs). -/
inductive Material where
  | Basic
  | Normal
  | Lambert
deriving DecidableEq, Repr

/-! ## GPU Buffer (buffer.rs) -/

/-- The Vulkan device calls performed by the `Buffer` methods (buffer.rs). -/
inductive BufferOp where
  | freeMemory
  | destroyBuffer
  | createBuffer
  | allocateMemory
  | bindBufferMemory
deriving DecidableEq, Repr

/-- Trace of `Buffer::allocate` (buffer.rs:48-71): create the buffer object, allocate
its memory, bind the memory to the buffer. -/
def Buffer.allocateOps : List BufferOp :=
  [BufferOp.createBuffer, BufferOp.allocateMemory, BufferOp.bindBufferMemory]

/-- Trace of `Buffer::reallocate` (buffer.rs:35-46): first free the old memory and
destroy the old buffer object, then run `Self::allocate` for the replacement. -/
def Buffer.reallocateOps : List BufferOp :=
  [BufferOp.freeMemory, BufferOp.destroyBuffer] ++ Buffer.allocateOps

/-- The capacity bookkeeping of `Buffer` (buffer.rs:4-10): the only field the
verified properties depend on. -/
structure Buffer where
  capacity : Nat
deriving DecidableEq, Repr

/-- Constructor `Buffer::null` (buffer.rs:25-33): zero-capacity placeholder. -/
def Buffer.null : Buffer := ⟨0⟩

/-- Method `Buffer::reallocate` (buffer.rs:35-46), state level: the capacity becomes
the requested one. -/
def Buffer.reallocate (_b : Buffer) (capacity : Nat) : Buffer := ⟨capacity⟩

/-! ## Swapchain extent selection (renderer.rs:213-223) -/

def U32_MAX : Nat := 4294967295

structure Extent2D where
  width : Nat
  height : Nat
deriving DecidableEq, Repr

/-- The extent computation of `Renderer::create_swapchain` (renderer.rs:215-223):
when the surface reports the don't-care sentinel width, the code computes
`max(current, min(current, framebuffer))` per component; otherwise it takes the
surface's current extent. -/
def chooseSwapchainExtent (currentExtent : Extent2D)
    (framebufferWidth framebufferHeight : Nat) : Extent2D :=
  if currentExtent.width = U32_MAX then
    { width := max currentExtent.width (min currentExtent.width framebufferWidth),
      height := max currentExtent.height (min currentExtent.height framebufferHeight) }
  else
    currentExtent

/-! ## Mesh inputs as the packer sees them -/

/-- A mesh as the packing passes consume it: the length of its `u16` index
array, the length of its `f32` attribute array, and its material
(geometry3d/mod.rs contract, mesh.rs). -/
structure MeshInput where
  indexCount : Nat
  attributeCount : Nat
  material : Material
deriving DecidableEq, Repr

/-- Byte size `mem::size_of_val(indices)`: two bytes per `u16` index. -/
def MeshInput.indexSize (m : MeshInput) : Nat := 2 * m.indexCount

/-- Byte size `mem::size_of_val(attributes)`: four bytes per `f32` attribute. -/
def MeshInput.attributeSize (m : MeshInput) : Nat := 4 * m.attributeCount

/-! ## Static geometry submission (renderer.rs:834-960) -/

/-- One entry of `static_mesh_render_info`:
`(index offset, attribute offset, uniform offset, index count, material)`
(renderer.rs:92, renderer.rs:856). -/
structure RenderInfo where
  indexOffset : Nat
  attributeOffset : Nat
  uniformOffset : Nat
  indexCount : Nat
  material : Material
deriving DecidableEq, Repr

/-- The layout loop of `submit_static_meshes` (renderer.rs:842-858), including
its cursor update `mesh_offset += uniform_offset + uniform_size`.  Returns the
render-info list and the final value of `mesh_offset` (used as the buffer
size, renderer.rs:861). -/
def staticLayoutLoop (uniformAlignment : Nat) :
    Nat → List MeshInput → List RenderInfo × Nat
  | meshOffset, [] => ([], meshOffset)
  | meshOffset, m :: rest =>
    let indexSize := m.indexSize
    let indexPaddingSize := (4 - (meshOffset + indexSize) % 4) % 4
    let attributeOffset := meshOffset + indexSize + indexPaddingSize
    let attributeSize := m.attributeSize
    let attributePaddingSize :=
      (uniformAlignment - (attributeOffset + attributeSize) % uniformAlignment) % uniformAlignment
    let uniformOffset := attributeOffset + attributeSize + attributePaddingSize
    let uniformSize := 16 * 4
    let r := staticLayoutLoop uniformAlignment (meshOffset + (uniformOffset + uniformSize)) rest
    (⟨meshOffset, attributeOffset, uniformOffset, m.indexCount, m.material⟩ :: r.1, r.2)

/-- The state `submit_static_meshes` mutates: the cached render-info table and
the device-local static mesh buffer (renderer.rs:90-92). -/
structure StaticMeshState where
  renderInfo : List RenderInfo
  buffer : Buffer
deriving DecidableEq, Repr

/-- Method `Renderer::submit_static_meshes` (renderer.rs:834-960) at the layout and
state level: clear and recompute the render-info table from scratch, compute
the total buffer size, reallocate the device-local buffer when the size
exceeds its capacity.  Returns the new state and the computed buffer size. -/
def submitStaticMeshes (uniformAlignment : Nat) (s : StaticMeshState)
    (meshes : List MeshInput) : StaticMeshState × Nat :=
  let r := staticLayoutLoop uniformAlignment 0 meshes
  let bufferSize := r.2
  let buffer :=
    if bufferSize > s.buffer.capacity then s.buffer.reallocate bufferSize else s.buffer
  (⟨r.1, buffer⟩, bufferSize)

/-- The packing walk as the spec describes it (spec.md section 4.3): per mesh,
index bytes padded to 4 bytes, then attribute bytes padded to the uniform
alignment, then the 16-float transform uniform; the cursor moves to the end of
the mesh block.  This is the reference the code's `staticLayoutLoop` is
compared against. -/
def specStaticWalk (uniformAlignment : Nat) : Nat → List MeshInput → Nat
  | cursor, [] => cursor
  | cursor, m :: rest =>
    let afterIndices :=
      cursor + m.indexSize + (4 - (cursor + m.indexSize) % 4) % 4
    let afterAttributes :=
      afterIndices + m.attributeSize +
        (uniformAlignment - (afterIndices + m.attributeSize) % uniformAlignment) % uniformAlignment
    specStaticWalk uniformAlignment (afterAttributes + 16 * 4) rest

/-- Total static buffer size according to the spec's walk. -/
def specStaticTotal (uniformAlignment : Nat) (meshes : List MeshInput) : Nat :=
  specStaticWalk uniformAlignment 0 meshes

/-! ## Dynamic buffer growth in render (renderer.rs:1064-1076) -/

/-- renderer.rs:1067-1076 together with `Buffer::reallocate`: grow the
in-flight frame's dynamic buffer exactly when the frame's required byte size
exceeds the current capacity; the boolean records whether the reallocation
(and descriptor rewrite) happened.  There is no error path. -/
def growInFlightFrameBuffer (buffer : Buffer) (requiredSize : Nat) : Buffer × Bool :=
  if requiredSize > buffer.capacity then (buffer.reallocate requiredSize, true)
  else (buffer, false)

/-! ## Per-frame dynamic packing pass (renderer.rs:1011-1062)

The code pads a running byte cursor with expressions of the shape
`pos + (alignment - pos % alignment) % alignment`; `padTo` names that idiom. -/

/-- Value `pos + padding` where `padding = (alignment - pos % alignment) % alignment`
(renderer.rs:1021, renderer.rs:1024, renderer.rs:1047, renderer.rs:1050). -/
def padTo (alignment pos : Nat) : Nat :=
  pos + (alignment - pos % alignment) % alignment

/-- The per-mesh byte offsets cached on a dynamic mesh by `render`
(renderer.rs:1028-1030). -/
structure MeshOffsets where
  indexOffset : Nat
  attributeOffset : Nat
  uniformOffset : Nat
deriving DecidableEq, Repr

/-- A text object as the packer measures it after glyph generation: the length
of its `u16` index array and of its `f32` attribute array. -/
structure TextInput where
  indexCount : Nat
  attributeCount : Nat
deriving DecidableEq, Repr

def TextInput.indexSize (t : TextInput) : Nat := 2 * t.indexCount

def TextInput.attributeSize (t : TextInput) : Nat := 4 * t.attributeCount

/-- The per-text byte offsets cached on a text object by `render`
(renderer.rs:1055-1058). -/
structure TextOffsets where
  indexOffset : Nat
  attributeOffset : Nat
  matrixUniformOffset : Nat
  atlasIndexUniformOffset : Nat
deriving DecidableEq, Repr

/-- One iteration of the dynamic-mesh loop (renderer.rs:1015-1033): index
bytes at the cursor, attribute bytes after padding the cursor to 4, the
16-float transform uniform after padding to the uniform alignment; the new
cursor is `uniform_offset + uniform_size`. -/
def meshPackStep (uniformAlignment offset : Nat) (m : MeshInput) : MeshOffsets × Nat :=
  let attributeOffset := padTo 4 (offset + m.indexSize)
  let uniformOffset := padTo uniformAlignment (attributeOffset + m.attributeSize)
  (⟨offset, attributeOffset, uniformOffset⟩, uniformOffset + 16 * 4)

def packMeshes (uniformAlignment : Nat) : Nat → List MeshInput → List MeshOffsets × Nat
  | offset, [] => ([], offset)
  | offset, m :: rest =>
    ((meshPackStep uniformAlignment offset m).1 ::
        (packMeshes uniformAlignment (meshPackStep uniformAlignment offset m).2 rest).1,
      (packMeshes uniformAlignment (meshPackStep uniformAlignment offset m).2 rest).2)

/-- One iteration of the text loop (renderer.rs:1035-1062): like a mesh up to
the matrix uniform, then the atlas index uniform at the text renderer's
relative offset, the new cursor being
`atlas_index_uniform_offset + atlas_index_uniform_size` with
`atlas_index_uniform_size = size_of::<u32>()`. -/
def textPackStep (uniformAlignment atlasIndexUniformRelativeOffset offset : Nat)
    (t : TextInput) : TextOffsets × Nat :=
  let attributeOffset := padTo 4 (offset + t.indexSize)
  let matrixUniformOffset := padTo uniformAlignment (attributeOffset + t.attributeSize)
  let atlasIndexUniformOffset := matrixUniformOffset + atlasIndexUniformRelativeOffset
  (⟨offset, attributeOffset, matrixUniformOffset, atlasIndexUniformOffset⟩,
    atlasIndexUniformOffset + 4)

def packTexts (uniformAlignment atlasIndexUniformRelativeOffset : Nat) :
    Nat → List TextInput → List TextOffsets × Nat
  | offset, [] => ([], offset)
  | offset, t :: rest =>
    ((textPackStep uniformAlignment atlasIndexUniformRelativeOffset offset t).1 ::
        (packTexts uniformAlignment atlasIndexUniformRelativeOffset
          (textPackStep uniformAlignment atlasIndexUniformRelativeOffset offset t).2 rest).1,
      (packTexts uniformAlignment atlasIndexUniformRelativeOffset
        (textPackStep uniformAlignment atlasIndexUniformRelativeOffset offset t).2 rest).2)

/-- The whole per-frame packing pass (renderer.rs:1013-1062): the cursor
starts at `FRAME_DATA_MEMORY_SIZE`, walks every dynamic mesh, then every text
object; the final cursor is the frame's required dynamic buffer size
(renderer.rs:1065). -/
def packDynamicScene (uniformAlignment atlasIndexUniformRelativeOffset : Nat)
    (meshes : List MeshInput) (texts : List TextInput) :
    List MeshOffsets × List TextOffsets × Nat :=
  ((packMeshes uniformAlignment FRAME_DATA_MEMORY_SIZE meshes).1,
   (packTexts uniformAlignment atlasIndexUniformRelativeOffset
      (packMeshes uniformAlignment FRAME_DATA_MEMORY_SIZE meshes).2 texts).1,
   (packTexts uniformAlignment atlasIndexUniformRelativeOffset
      (packMeshes uniformAlignment FRAME_DATA_MEMORY_SIZE meshes).2 texts).2)

/-- The byte offsets of a mesh in walk order. -/
def meshWalk : List MeshOffsets → List Nat
  | [] => []
  | o :: os => o.indexOffset :: o.attributeOffset :: o.uniformOffset :: meshWalk os

/-- The byte offsets of a text object in walk order (up to its matrix uniform,
the per-object uniform the claim's chain refers to). -/
def textWalk : List TextOffsets → List Nat
  | [] => []
  | o :: os => o.indexOffset :: o.attributeOffset :: o.matrixUniformOffset :: textWalk os

/-- Per-mesh offset facts the claim C4 states: the attribute offset is the
index offset plus the index byte size rounded up to the next multiple of 4,
and the uniform offset is a multiple of the uniform alignment. -/
def MeshLocalSpec (ua : Nat) (m : MeshInput) (o : MeshOffsets) : Prop :=
  o.attributeOffset = o.indexOffset + padTo 4 m.indexSize ∧
  o.uniformOffset % ua = 0

/-- Per-text offset facts: as for meshes on the matrix uniform, and the atlas
index uniform sits at the text renderer's relative offset past it. -/
def TextLocalSpec (ua rel : Nat) (t : TextInput) (o : TextOffsets) : Prop :=
  o.attributeOffset = o.indexOffset + padTo 4 t.indexSize ∧
  o.matrixUniformOffset % ua = 0 ∧
  o.atlasIndexUniformOffset = o.matrixUniformOffset + rel

/-- The conjunction claim C4 states about a packed frame: strictly increasing
offsets along the walk (with the final cursor strictly past every offset), and
the per-object local offset facts. -/
def PackedLayoutCorrect (ua rel : Nat) (meshes : List MeshInput)
    (texts : List TextInput) : Prop :=
  List.Pairwise (· < ·)
    (meshWalk (packDynamicScene ua rel meshes texts).1 ++
      textWalk (packDynamicScene ua rel meshes texts).2.1 ++
      [(packDynamicScene ua rel meshes texts).2.2]) ∧
  List.Forall₂ (MeshLocalSpec ua) meshes (packDynamicScene ua rel meshes texts).1 ∧
  List.Forall₂ (TextLocalSpec ua rel) texts (packDynamicScene ua rel meshes texts).2.1

/-! ## Descriptor rewrite on dynamic buffer growth (renderer.rs:729-800) -/

/-- The three descriptor sets of an in-flight frame (renderer.rs:104-106). -/
inductive DescriptorSetKind where
  | frameData
  | meshData
  | textData
deriving DecidableEq, Repr

inductive DescriptorType where
  | uniformBuffer
  | uniformBufferDynamic
deriving DecidableEq, Repr

/-- One `vk::WriteDescriptorSet` with its buffer info (destination set,
binding, buffer offset, byte range, descriptor type). -/
structure WriteDescriptorSet where
  dstSet : DescriptorSetKind
  dstBinding : Nat
  offset : Nat
  range : Nat
  descriptorType : DescriptorType
deriving DecidableEq, Repr

/-- Function `update_in_flight_frame_descriptor_sets` (renderer.rs:729-800): the four
writes issued against the (new) dynamic buffer — frame data at binding 0 with
range `FRAME_DATA_MEMORY_SIZE`, mesh data at binding 0 with a 16-float range,
text matrix at binding 0 with a 12-float range, text atlas index at binding 1
with a `u32` range, every one at buffer offset 0. -/
def updateInFlightFrameDescriptorSets : List WriteDescriptorSet :=
  [⟨DescriptorSetKind.frameData, 0, 0, FRAME_DATA_MEMORY_SIZE, DescriptorType.uniformBuffer⟩,
   ⟨DescriptorSetKind.meshData, 0, 0, 16 * 4, DescriptorType.uniformBufferDynamic⟩,
   ⟨DescriptorSetKind.textData, 0, 0, 12 * 4, DescriptorType.uniformBufferDynamic⟩,
   ⟨DescriptorSetKind.textData, 1, 0, 4, DescriptorType.uniformBufferDynamic⟩]

/-- renderer.rs:1011-1076: the packing pass followed by the conditional grow
and descriptor rewrite.  Returns the packed layout (untouched by the grow),
the possibly reallocated buffer, and the descriptor writes issued. -/
def packAndGrow (ua rel : Nat) (meshes : List MeshInput) (texts : List TextInput)
    (buffer : Buffer) :
    (List MeshOffsets × List TextOffsets × Nat) × Buffer × List WriteDescriptorSet :=
  (packDynamicScene ua rel meshes texts,
   (growInFlightFrameBuffer buffer (packDynamicScene ua rel meshes texts).2.2).1,
   if (growInFlightFrameBuffer buffer (packDynamicScene ua rel meshes texts).2.2).2 then
     updateInFlightFrameDescriptorSets
   else
     [])

/-- The conjunction claim C8 states about a growing frame: the four writes are
issued, each at offset 0 with the fixed per-kind ranges, and the packed layout
(in particular the number of packed objects) is what the packing pass produced,
unchanged by the grow. -/
def GrowRewriteCorrect (ua rel : Nat) (meshes : List MeshInput)
    (texts : List TextInput) (buffer : Buffer) : Prop :=
  (packAndGrow ua rel meshes texts buffer).2.2 = updateInFlightFrameDescriptorSets ∧
  (∀ w ∈ (packAndGrow ua rel meshes texts buffer).2.2, w.offset = 0) ∧
  ((packAndGrow ua rel meshes texts buffer).2.2.map WriteDescriptorSet.range =
    [FRAME_DATA_MEMORY_SIZE, 16 * 4, 12 * 4, 4]) ∧
  (packAndGrow ua rel meshes texts buffer).1 = packDynamicScene ua rel meshes texts ∧
  (packAndGrow ua rel meshes texts buffer).1.1.length = meshes.length ∧
  (packAndGrow ua rel meshes texts buffer).1.2.1.length = texts.length

/-! ## Render control flow (renderer.rs:972-1355) -/

/-- Outcome of `acquire_next_image` (renderer.rs:987-998): ash returns
`Ok((index, suboptimal))`, `Err(ERROR_OUT_OF_DATE_KHR)`, or another error
(which the code turns into a panic). -/
inductive AcquireResult where
  | success (imageIndex : Nat) (suboptimal : Bool)
  | outOfDate
  | otherError
deriving DecidableEq, Repr

/-- Outcome of `queue_present` (renderer.rs:1344-1350): `Ok(suboptimal)`,
`Err(ERROR_OUT_OF_DATE_KHR)`, or another error (panic). -/
inductive PresentResult where
  | ok (suboptimal : Bool)
  | outOfDate
  | otherError
deriving DecidableEq, Repr

/-- Returns `true` exactly when renderer.rs:1346-1350 maps the present outcome to a
"surface changed" report. -/
def PresentResult.surfaceChanged : PresentResult → Bool
  | .ok suboptimal => suboptimal
  | .outOfDate => true
  | .otherError => false

/-- The phases of a frame that follow image acquisition. -/
inductive RenderStage where
  | packScene
  | recordCommands
  | submitToQueue
  | presentImage
deriving DecidableEq, Repr

/-- The control flow of `Renderer::render` (renderer.rs:987-998 and
renderer.rs:1344-1354) over its two fallible driver calls; `none` models a
panic.  On `ERROR_OUT_OF_DATE_KHR` at acquire time the function returns `true`
immediately, before any packing, recording, submission or present; otherwise
it runs the full frame and derives its boolean from the present outcome. -/
def renderFlow (acquire : AcquireResult) (present : PresentResult) :
    Option (Bool × List RenderStage) :=
  match acquire with
  | .outOfDate => some (true, [])
  | .otherError => none
  | .success _ _ =>
    match present with
    | .ok suboptimal =>
      some (suboptimal, [RenderStage.packScene, RenderStage.recordCommands,
        RenderStage.submitToQueue, RenderStage.presentImage])
    | .outOfDate =>
      some (true, [RenderStage.packScene, RenderStage.recordCommands,
        RenderStage.submitToQueue, RenderStage.presentImage])
    | .otherError => none

/-! ## Point light section of render (renderer.rs:1104-1128) -/

/-- Events in the frame-data section of `render`, offsets in bytes from the
start of the mapped dynamic buffer. -/
inductive FrameDataEvent where
  | write (offset size : Nat)
  | assertionFailure
  | writePointLightCount (offset value : Nat)
deriving DecidableEq, Repr

def FrameDataEvent.isCountWrite : FrameDataEvent → Bool
  | .writePointLightCount _ _ => true
  | _ => false

/-- The point-light loop (renderer.rs:1109-1121): for light `i` (zero-based,
`point_light_count` equals `i` when light `i` is processed) the position is
written at `36*4 + 8*4*i` and the premultiplied color at `40*4 + 8*4*i`, each
three `f32` values (12 bytes). -/
def pointLightWrites (numPointLights : Nat) : List FrameDataEvent :=
  (List.range numPointLights).flatMap fun i =>
    [FrameDataEvent.write (36 * 4 + 8 * 4 * i) 12,
     FrameDataEvent.write (40 * 4 + 8 * 4 * i) 12]

/-- renderer.rs:1104-1128: the loop writes every point light of the scene,
then the `assert!(point_light_count <= MAX_POINT_LIGHTS)` runs, and on success
the `u32` light count is written at `35*4`. -/
def pointLightSection (numPointLights : Nat) : List FrameDataEvent :=
  pointLightWrites numPointLights ++
    (if numPointLights ≤ MAX_POINT_LIGHTS then
      [FrameDataEvent.writePointLightCount (35 * 4) numPointLights]
    else
      [FrameDataEvent.assertionFailure])

/-! ## Padding arithmetic and step unfolding lemmas -/

theorem le_padTo (alignment pos : Nat) : pos ≤ padTo alignment pos :=
  Nat.le_add_right _ _

theorem padTo_mod (alignment pos : Nat) (h : 0 < alignment) :
    padTo alignment pos % alignment = 0 := by
  unfold padTo
  rcases Nat.eq_zero_or_pos (pos % alignment) with h0 | hpos
  · rw [h0, Nat.sub_zero, Nat.mod_self, Nat.add_zero]
    exact h0
  · have hlt : pos % alignment < alignment := Nat.mod_lt _ h
    have h1 : (alignment - pos % alignment) % alignment = alignment - pos % alignment :=
      Nat.mod_eq_of_lt (by omega)
    rw [h1, Nat.add_mod, h1,
      show pos % alignment + (alignment - pos % alignment) = alignment by omega,
      Nat.mod_self]

theorem padTo_four_shift (p q : Nat) (h : p % 4 = 0) :
    padTo 4 (p + q) = p + padTo 4 q := by
  unfold padTo
  omega

theorem mod_four_of_mod_align (ua x : Nat) (hua4 : ua % 4 = 0) (hx : x % ua = 0) :
    x % 4 = 0 := by
  have h4 : (4 : Nat) ∣ ua := Nat.dvd_of_mod_eq_zero hua4
  calc x % 4 = x % ua % 4 := (Nat.mod_mod_of_dvd x h4).symm
  _ = 0 % 4 := by rw [hx]
  _ = 0 := rfl

theorem meshPackStep_fst (ua off : Nat) (m : MeshInput) :
    (meshPackStep ua off m).1 =
      ⟨off, padTo 4 (off + m.indexSize),
        padTo ua (padTo 4 (off + m.indexSize) + m.attributeSize)⟩ := rfl

theorem meshPackStep_snd (ua off : Nat) (m : MeshInput) :
    (meshPackStep ua off m).2 =
      padTo ua (padTo 4 (off + m.indexSize) + m.attributeSize) + 16 * 4 := rfl

theorem textPackStep_fst (ua rel off : Nat) (t : TextInput) :
    (textPackStep ua rel off t).1 =
      ⟨off, padTo 4 (off + t.indexSize),
        padTo ua (padTo 4 (off + t.indexSize) + t.attributeSize),
        padTo ua (padTo 4 (off + t.indexSize) + t.attributeSize) + rel⟩ := rfl

theorem textPackStep_snd (ua rel off : Nat) (t : TextInput) :
    (textPackStep ua rel off t).2 =
      padTo ua (padTo 4 (off + t.indexSize) + t.attributeSize) + rel + 4 := rfl

/-! ## Packing-pass invariants (used for claim C4) -/

/-- Invariants of the dynamic-mesh loop: the cursor only advances and stays
4-aligned, every produced offset lies between the starting cursor and the
final cursor, the offsets are strictly increasing in walk order, and each mesh
satisfies the local offset facts. -/
theorem packMeshes_spec (ua : Nat) (hua : 0 < ua) (hua4 : ua % 4 = 0) :
    ∀ (ms : List MeshInput) (off : Nat), off % 4 = 0 →
      (∀ m ∈ ms, 0 < m.indexCount ∧ 0 < m.attributeCount) →
      off ≤ (packMeshes ua off ms).2 ∧
      (packMeshes ua off ms).2 % 4 = 0 ∧
      (∀ x ∈ meshWalk (packMeshes ua off ms).1,
        off ≤ x ∧ x < (packMeshes ua off ms).2) ∧
      List.Pairwise (· < ·) (meshWalk (packMeshes ua off ms).1) ∧
      List.Forall₂ (MeshLocalSpec ua) ms (packMeshes ua off ms).1
  | [], off, hoff, _ =>
      ⟨Nat.le_refl _, hoff,
        fun x hx => absurd hx (by simp [packMeshes, meshWalk]),
        by simp [packMeshes, meshWalk], List.Forall₂.nil⟩
  | m :: rest, off, hoff, hms => by
      obtain ⟨hic, hac⟩ := hms m (List.mem_cons_self m rest)
      have hisz : 2 ≤ m.indexSize := by unfold MeshInput.indexSize; omega
      have hasz : 4 ≤ m.attributeSize := by unfold MeshInput.attributeSize; omega
      have hA_le : off + m.indexSize ≤ padTo 4 (off + m.indexSize) := le_padTo _ _
      have hU_le : padTo 4 (off + m.indexSize) + m.attributeSize ≤
          padTo ua (padTo 4 (off + m.indexSize) + m.attributeSize) := le_padTo _ _
      have hUmod : padTo ua (padTo 4 (off + m.indexSize) + m.attributeSize) % ua = 0 :=
        padTo_mod ua _ hua
      have hUmod4 : padTo ua (padTo 4 (off + m.indexSize) + m.attributeSize) % 4 = 0 :=
        mod_four_of_mod_align ua _ hua4 hUmod
      obtain ⟨ih1, ih2, ih3, ih4, ih5⟩ := packMeshes_spec ua hua hua4 rest
        (padTo ua (padTo 4 (off + m.indexSize) + m.attributeSize) + 16 * 4)
        (by omega) (fun x hx => hms x (List.mem_cons_of_mem m hx))
      simp only [packMeshes, meshPackStep_fst, meshPackStep_snd, meshWalk]
      refine ⟨by omega, ih2, ?_, ?_, ?_⟩
      · intro x hx
        simp only [List.mem_cons] at hx
        rcases hx with rfl | rfl | rfl | hx
        · omega
        · omega
        · omega
        · have := ih3 x hx
          omega
      · refine List.Pairwise.cons ?_ (List.Pairwise.cons ?_ (List.Pairwise.cons ?_ ih4))
        · intro b hb
          simp only [List.mem_cons] at hb
          rcases hb with rfl | rfl | hb
          · omega
          · omega
          · have := (ih3 b hb).1
            omega
        · intro b hb
          simp only [List.mem_cons] at hb
          rcases hb with rfl | hb
          · omega
          · have := (ih3 b hb).1
            omega
        · intro b hb
          have := (ih3 b hb).1
          omega
      · exact List.Forall₂.cons ⟨padTo_four_shift off m.indexSize hoff, hUmod⟩ ih5

/-- Invariants of the text loop, mirroring `packMeshes_spec`; the relative
offset of the atlas index uniform only needs to be 4-aligned for the cursor
invariant. -/
theorem packTexts_spec (ua rel : Nat) (hua : 0 < ua) (hua4 : ua % 4 = 0)
    (hrel4 : rel % 4 = 0) :
    ∀ (ts : List TextInput) (off : Nat), off % 4 = 0 →
      (∀ t ∈ ts, 0 < t.indexCount ∧ 0 < t.attributeCount) →
      off ≤ (packTexts ua rel off ts).2 ∧
      (packTexts ua rel off ts).2 % 4 = 0 ∧
      (∀ x ∈ textWalk (packTexts ua rel off ts).1,
        off ≤ x ∧ x < (packTexts ua rel off ts).2) ∧
      List.Pairwise (· < ·) (textWalk (packTexts ua rel off ts).1) ∧
      List.Forall₂ (TextLocalSpec ua rel) ts (packTexts ua rel off ts).1
  | [], off, hoff, _ =>
      ⟨Nat.le_refl _, hoff,
        fun x hx => absurd hx (by simp [packTexts, textWalk]),
        by simp [packTexts, textWalk], List.Forall₂.nil⟩
  | t :: rest, off, hoff, hts => by
      obtain ⟨hic, hac⟩ := hts t (List.mem_cons_self t rest)
      have hisz : 2 ≤ t.indexSize := by unfold TextInput.indexSize; omega
      have hasz : 4 ≤ t.attributeSize := by unfold TextInput.attributeSize; omega
      have hA_le : off + t.indexSize ≤ padTo 4 (off + t.indexSize) := le_padTo _ _
      have hU_le : padTo 4 (off + t.indexSize) + t.attributeSize ≤
          padTo ua (padTo 4 (off + t.indexSize) + t.attributeSize) := le_padTo _ _
      have hUmod : padTo ua (padTo 4 (off + t.indexSize) + t.attributeSize) % ua = 0 :=
        padTo_mod ua _ hua
      have hUmod4 : padTo ua (padTo 4 (off + t.indexSize) + t.attributeSize) % 4 = 0 :=
        mod_four_of_mod_align ua _ hua4 hUmod
      obtain ⟨ih1, ih2, ih3, ih4, ih5⟩ := packTexts_spec ua rel hua hua4 hrel4 rest
        (padTo ua (padTo 4 (off + t.indexSize) + t.attributeSize) + rel + 4)
        (by omega) (fun x hx => hts x (List.mem_cons_of_mem t hx))
      simp only [packTexts, textPackStep_fst, textPackStep_snd, textWalk]
      refine ⟨by omega, ih2, ?_, ?_, ?_⟩
      · intro x hx
        simp only [List.mem_cons] at hx
        rcases hx with rfl | rfl | rfl | hx
        · omega
        · omega
        · omega
        · have := ih3 x hx
          omega
      · refine List.Pairwise.cons ?_ (List.Pairwise.cons ?_ (List.Pairwise.cons ?_ ih4))
        · intro b hb
          simp only [List.mem_cons] at hb
          rcases hb with rfl | rfl | hb
          · omega
          · omega
          · have := (ih3 b hb).1
            omega
        · intro b hb
          simp only [List.mem_cons] at hb
          rcases hb with rfl | hb
          · omega
          · have := (ih3 b hb).1
            omega
        · intro b hb
          have := (ih3 b hb).1
          omega
      · exact List.Forall₂.cons ⟨padTo_four_shift off t.indexSize hoff, hUmod, rfl⟩ ih5

/-! ## Theorems for claims C1, C2, C3, C5, C7 -/

/-- C1: the claim states that in `Buffer::reallocate` the old buffer and
memory are freed only after the replacement has been created.  This is false
on the code: `reallocateOps` performs the free before the create.  This
theorem is the counterexample (the negation of the claimed ordering on the
concrete operation trace of `reallocate`). -/
theorem c1_reallocate_counterexample :
    ¬ (List.indexOf BufferOp.createBuffer Buffer.reallocateOps <
       List.indexOf BufferOp.freeMemory Buffer.reallocateOps) := by
  decide

/-- C1 (amended): in `Buffer::reallocate` the free of the old memory and the
destruction of the old buffer both precede the creation of the replacement
buffer and its memory allocation. -/
theorem c1_free_precedes_allocation :
    List.indexOf BufferOp.freeMemory Buffer.reallocateOps <
      List.indexOf BufferOp.createBuffer Buffer.reallocateOps ∧
    List.indexOf BufferOp.destroyBuffer Buffer.reallocateOps <
      List.indexOf BufferOp.createBuffer Buffer.reallocateOps ∧
    List.indexOf BufferOp.freeMemory Buffer.reallocateOps <
      List.indexOf BufferOp.allocateMemory Buffer.reallocateOps := by
  decide

/-- C2: on two identical meshes (3 indices, 18 attribute floats each) with
uniform alignment 256, the code's static layout loop reports a total buffer
size of 896 bytes, while the packing walk described by the spec ends at 576
bytes.  The divergence comes from renderer.rs:857, which advances the cursor
with `mesh_offset += uniform_offset + uniform_size` (adding the absolute
uniform offset again) where the dynamic path (renderer.rs:1032) assigns
`offset = uniform_offset + uniform_size`. -/
theorem c2_static_total_code_bug :
    (staticLayoutLoop 256 0
      [⟨3, 18, Material.Basic⟩, ⟨3, 18, Material.Basic⟩]).2 = 896 ∧
    specStaticTotal 256 [⟨3, 18, Material.Basic⟩, ⟨3, 18, Material.Basic⟩] = 576 ∧
    (896 : Nat) ≠ 576 := by
  decide

/-- C3: the "don't care" branch of the swapchain extent computation is a
no-op: `max(current, min(current, framebuffer))` always equals `current`, so
the caller-supplied framebuffer size is never chosen; the surface's current
extent (including the `u32::MAX` sentinel itself) is returned in every case. -/
theorem c3_swapchain_extent_never_framebuffer (currentExtent : Extent2D)
    (framebufferWidth framebufferHeight : Nat) :
    chooseSwapchainExtent currentExtent framebufferWidth framebufferHeight =
      currentExtent := by
  unfold chooseSwapchainExtent
  split
  · cases currentExtent with
    | mk w h =>
      simp only [Extent2D.mk.injEq]
      constructor
      · exact Nat.max_eq_left (Nat.min_le_left _ _)
      · exact Nat.max_eq_left (Nat.min_le_left _ _)
  · rfl

/-- C5: with exactly `MAX_POINT_LIGHTS = 5` point lights the assertion passes
and the `u32` light count is written at byte offset `35*4`; with one more
light the section ends in the assertion failure and the count is never
written. -/
theorem c5_point_light_boundary :
    (FrameDataEvent.writePointLightCount (35 * 4) 5 ∈ pointLightSection 5 ∧
     FrameDataEvent.assertionFailure ∉ pointLightSection 5) ∧
    (FrameDataEvent.assertionFailure ∈ pointLightSection 6 ∧
     ∀ e ∈ pointLightSection 6, e.isCountWrite = false) := by
  decide

/-- C7: the dynamic buffer of an in-flight frame never shrinks; it is
reallocated exactly when the required size strictly exceeds the capacity (and
then to the required size), and a required size within capacity leaves the
buffer unchanged, with no error path in either case. -/
theorem c7_dynamic_buffer_growth (buffer : Buffer) (requiredSize : Nat) :
    buffer.capacity ≤ (growInFlightFrameBuffer buffer requiredSize).1.capacity ∧
    ((growInFlightFrameBuffer buffer requiredSize).2 = true ↔
      buffer.capacity < requiredSize) ∧
    (requiredSize ≤ buffer.capacity →
      growInFlightFrameBuffer buffer requiredSize = (buffer, false)) ∧
    (buffer.capacity < requiredSize →
      growInFlightFrameBuffer buffer requiredSize =
        (buffer.reallocate requiredSize, true)) := by
  unfold growInFlightFrameBuffer Buffer.reallocate
  by_cases h : requiredSize > buffer.capacity
  · simp only [if_pos h]
    exact ⟨Nat.le_of_lt h, by simpa using h, fun hle => absurd h (by omega),
      fun _ => trivial⟩
  · simp only [if_neg h]
    exact ⟨Nat.le_refl _, by simpa using h, fun _ => trivial, fun hlt => absurd hlt h⟩

/-- Witness for C7 at capacity 10 and required size 5. -/
theorem c7_dynamic_buffer_growth_witness :
    (Buffer.mk 10).capacity ≤ (growInFlightFrameBuffer ⟨10⟩ 5).1.capacity ∧
    ((growInFlightFrameBuffer ⟨10⟩ 5).2 = true ↔ (Buffer.mk 10).capacity < 5) ∧
    (5 ≤ (Buffer.mk 10).capacity → growInFlightFrameBuffer ⟨10⟩ 5 = (⟨10⟩, false)) ∧
    ((Buffer.mk 10).capacity < 5 →
      growInFlightFrameBuffer ⟨10⟩ 5 = ((Buffer.mk 10).reallocate 5, true)) :=
  c7_dynamic_buffer_growth ⟨10⟩ 5

theorem packMeshes_length (ua : Nat) :
    ∀ (off : Nat) (ms : List MeshInput), (packMeshes ua off ms).1.length = ms.length
  | _, [] => rfl
  | off, m :: rest => by
      have := packMeshes_length ua (meshPackStep ua off m).2 rest
      simp only [packMeshes, List.length_cons]
      omega

theorem packTexts_length (ua rel : Nat) :
    ∀ (off : Nat) (ts : List TextInput), (packTexts ua rel off ts).1.length = ts.length
  | _, [] => rfl
  | off, t :: rest => by
      have := packTexts_length ua rel (textPackStep ua rel off t).2 rest
      simp only [packTexts, List.length_cons]
      omega

/-- C4: for every scene (meshes then texts, each with non-empty index and
attribute arrays), given the Vulkan alignment guarantees (a positive,
4-divisible uniform alignment; an atlas-index relative offset that is a
multiple of it), the per-frame packing pass produces strictly increasing
offsets along the walk with the final cursor past all of them, every attribute
offset equals its index offset plus the 4-padded index byte size, and every
uniform offset is a multiple of the uniform alignment. -/
theorem c4_dynamic_packing_offsets (ua rel : Nat) (meshes : List MeshInput)
    (texts : List TextInput) (hua : 0 < ua) (hua4 : ua % 4 = 0) (hrel : rel % ua = 0)
    (hm : ∀ m ∈ meshes, 0 < m.indexCount ∧ 0 < m.attributeCount)
    (ht : ∀ t ∈ texts, 0 < t.indexCount ∧ 0 < t.attributeCount) :
    PackedLayoutCorrect ua rel meshes texts := by
  have hrel4 : rel % 4 = 0 := mod_four_of_mod_align ua rel hua4 hrel
  have hstart : FRAME_DATA_MEMORY_SIZE % 4 = 0 := by decide
  obtain ⟨m1, m2, m3, m4, m5⟩ :=
    packMeshes_spec ua hua hua4 meshes FRAME_DATA_MEMORY_SIZE hstart hm
  obtain ⟨t1, t2, t3, t4, t5⟩ := packTexts_spec ua rel hua hua4 hrel4 texts
    (packMeshes ua FRAME_DATA_MEMORY_SIZE meshes).2 m2 ht
  simp only [PackedLayoutCorrect, packDynamicScene]
  refine ⟨?_, m5, t5⟩
  rw [List.pairwise_append]
  refine ⟨?_, by simp, ?_⟩
  · rw [List.pairwise_append]
    refine ⟨m4, t4, ?_⟩
    intro a ha b hb
    have h1 := (m3 a ha).2
    have h2 := (t3 b hb).1
    omega
  · intro a ha b hb
    simp only [List.mem_singleton] at hb
    subst hb
    simp only [List.mem_append] at ha
    rcases ha with ha | ha
    · have h1 := (m3 a ha).2
      have h2 := t1
      omega
    · exact (t3 a ha).2

/-- Witness for C4: one mesh (3 indices, 18 attribute floats) and one text
object (6 indices, 24 attribute floats), uniform alignment 256, atlas-index
relative offset 256. -/
theorem c4_dynamic_packing_offsets_witness :
    ((0 : Nat) < 256 ∧ 256 % 4 = 0 ∧ 256 % 256 = 0 ∧
      (∀ m ∈ [MeshInput.mk 3 18 Material.Basic], 0 < m.indexCount ∧ 0 < m.attributeCount) ∧
      (∀ t ∈ [TextInput.mk 6 24], 0 < t.indexCount ∧ 0 < t.attributeCount)) ∧
    PackedLayoutCorrect 256 256 [MeshInput.mk 3 18 Material.Basic] [TextInput.mk 6 24] :=
  ⟨⟨by decide, by decide, by decide, by decide, by decide⟩,
    c4_dynamic_packing_offsets 256 256 [MeshInput.mk 3 18 Material.Basic]
      [TextInput.mk 6 24] (by decide) (by decide) (by decide) (by decide) (by decide)⟩

/-- C6: for every non-panicking run of `render`, the returned boolean is true
exactly when acquisition reported out-of-date or the frame ran to presentation
and the present outcome was suboptimal/out-of-date; and an out-of-date at
acquire time abandons the frame with no stage performed at all. -/
theorem c6_render_surface_changed (acquire : AcquireResult) (present : PresentResult)
    (b : Bool) (stages : List RenderStage)
    (h : renderFlow acquire present = some (b, stages)) :
    (b = true ↔ (acquire = AcquireResult.outOfDate ∨
      (RenderStage.presentImage ∈ stages ∧ present.surfaceChanged = true))) ∧
    (acquire = AcquireResult.outOfDate → stages = []) := by
  cases acquire <;> cases present <;>
    simp only [renderFlow, Option.some.injEq, Prod.mk.injEq, reduceCtorEq] at h <;>
    obtain ⟨rfl, rfl⟩ := h <;>
    simp [PresentResult.surfaceChanged]

/-- Witness for C6: acquisition reports out-of-date; the present outcome is
irrelevant and no stage runs. -/
theorem c6_render_surface_changed_witness :
    ((true = true) ↔ (AcquireResult.outOfDate = AcquireResult.outOfDate ∨
      (RenderStage.presentImage ∈ ([] : List RenderStage) ∧
        (PresentResult.ok false).surfaceChanged = true))) ∧
    (AcquireResult.outOfDate = AcquireResult.outOfDate → ([] : List RenderStage) = []) :=
  c6_render_surface_changed AcquireResult.outOfDate (PresentResult.ok false) true [] rfl

/-- C8: whenever the frame's required size exceeds the dynamic buffer's
capacity, the grow path issues exactly the four descriptor writes, all at
offset 0 with ranges `FRAME_DATA_MEMORY_SIZE`, 16 floats, 12 floats and one
`u32`, and the packed layout (hence the number of packed scene objects) is
unchanged by the grow. -/
theorem c8_grow_rewrites_descriptors (ua rel : Nat) (meshes : List MeshInput)
    (texts : List TextInput) (buffer : Buffer)
    (h : buffer.capacity < (packDynamicScene ua rel meshes texts).2.2) :
    GrowRewriteCorrect ua rel meshes texts buffer := by
  have hg : (growInFlightFrameBuffer buffer (packDynamicScene ua rel meshes texts).2.2).2
      = true := by
    unfold growInFlightFrameBuffer
    rw [if_pos h]
  have hw : (packAndGrow ua rel meshes texts buffer).2.2 =
      updateInFlightFrameDescriptorSets := by
    simp only [packAndGrow]
    rw [hg]
    simp
  refine ⟨hw, ?_, ?_, rfl, packMeshes_length ua FRAME_DATA_MEMORY_SIZE meshes,
    packTexts_length ua rel (packMeshes ua FRAME_DATA_MEMORY_SIZE meshes).2 texts⟩
  · rw [hw]
    decide
  · rw [hw]
    rfl

/-- Witness for C8: the empty scene against the zero-capacity null buffer; the
required size is the frame-data header, which exceeds capacity 0. -/
theorem c8_grow_rewrites_descriptors_witness :
    Buffer.null.capacity < (packDynamicScene 256 64 [] []).2.2 ∧
    GrowRewriteCorrect 256 64 [] [] Buffer.null :=
  ⟨by decide, c8_grow_rewrites_descriptors 256 64 [] [] Buffer.null (by decide)⟩

/-- C9: calling the static submission path twice in succession with an
identical mesh list yields the identical render-info table and the identical
computed buffer size both times; indeed the table and size are independent of
the pre-call state (the table is replaced wholesale). -/
theorem c9_static_submission_idempotent (ua : Nat) (s : StaticMeshState)
    (meshes : List MeshInput) :
    (submitStaticMeshes ua (submitStaticMeshes ua s meshes).1 meshes).1.renderInfo =
      (submitStaticMeshes ua s meshes).1.renderInfo ∧
    (submitStaticMeshes ua (submitStaticMeshes ua s meshes).1 meshes).2 =
      (submitStaticMeshes ua s meshes).2 ∧
    ∀ s' : StaticMeshState,
      (submitStaticMeshes ua s' meshes).1.renderInfo =
        (submitStaticMeshes ua s meshes).1.renderInfo ∧
      (submitStaticMeshes ua s' meshes).2 = (submitStaticMeshes ua s meshes).2 :=
  ⟨rfl, rfl, fun _ => ⟨rfl, rfl⟩⟩

/-- C10: for any scene with more than `MAX_POINT_LIGHTS` point lights, the
section's event trace is all per-light writes followed by the assertion
failure — so the assertion is evaluated only after every light has been
written — and among those writes is one of 12 bytes starting exactly at
`FRAME_DATA_MEMORY_SIZE`, i.e. beyond the fixed 76-float frame-data region. -/
theorem c10_writes_beyond_frame_data_before_assert (n : Nat)
    (h : MAX_POINT_LIGHTS < n) :
    pointLightSection n = pointLightWrites n ++ [FrameDataEvent.assertionFailure] ∧
    FrameDataEvent.write FRAME_DATA_MEMORY_SIZE 12 ∈ pointLightWrites n := by
  constructor
  · unfold pointLightSection
    rw [if_neg (Nat.not_le.mpr h)]
  · have h5 : 5 ∈ List.range n := by
      rw [List.mem_range]
      have : MAX_POINT_LIGHTS = 5 := rfl
      omega
    refine List.mem_flatMap.mpr ⟨5, h5, ?_⟩
    have he : FRAME_DATA_MEMORY_SIZE = 36 * 4 + 8 * 4 * 5 := by decide
    rw [he]
    exact List.mem_cons_self _ _

/-- Witness for C10 at six point lights. -/
theorem c10_writes_beyond_frame_data_before_assert_witness :
    MAX_POINT_LIGHTS < 6 ∧
    (pointLightSection 6 = pointLightWrites 6 ++ [FrameDataEvent.assertionFailure] ∧
      FrameDataEvent.write FRAME_DATA_MEMORY_SIZE 12 ∈ pointLightWrites 6) :=
  ⟨by decide, c10_writes_beyond_frame_data_before_assert 6 (by decide)⟩

end VulkanEngine
